import Mathlib

/-!
Shallow embedding of `src/autonomy_repo/scripts/navigator.py` (a TurtleBot
navigation node: heading controller, feedback-linearization trajectory
tracking controller, A*-plus-spline trajectory planning, and the replanning
handler / mode state machine), together with proofs settling the claims
about it.

Modelling conventions:
* Real-valued quantities are modelled over `ℚ` so that every definition is
  executable and decidable.  Transcendental functions the code obtains from
  numpy (`np.cos`, `np.sin`) and the Euclidean vector norm
  (`np.linalg.norm`) are abstracted as function parameters, since none of
  the claims depends on their analytic definitions beyond concrete values
  that are themselves rational.
* Fallible library calls are modelled with `Except`: `scipy.interpolate.splrep`
  raises a `ValueError` when its abscissae are not strictly increasing (or
  when fewer points than `k + 1 = 4` are supplied), which the navigator code
  never catches; an uncaught exception is an `Except.error`.
* Helpers of the course library `asl_tb3_lib` (`wrap_angle`,
  `distance_linear`) and the controller configuration (`kp`, `kpx`, …,
  `V_PREV_THRES`, `V_max`) are not part of this repository's sources; they
  are modelled from the spec where a claim depends on them.
-/

namespace Navigator

/-- State of the robot: position `(x, y)` and heading `theta`
(message type `TurtleBotState` of the source). -/
structure TurtleBotState where
  x : ℚ
  y : ℚ
  theta : ℚ
deriving DecidableEq

/-- Control command: linear speed and angular rate (message type
`TurtleBotControl`).  The source sets the angular field via
`control_message.omega = ...` in the heading controller and via the
`angular_velocity=om` keyword in the tracking controller; both are the
angular-rate field, modelled here as `omega`.  A default-constructed
message has both fields zero. -/
structure TurtleBotControl where
  velocity : ℚ
  omega : ℚ
deriving DecidableEq

/-- Navigation mode (`class NavMode(Enum)` of the source). -/
inductive NavMode where
  | IDLE
  | ALIGN
  | TRACK
  | PARK
deriving DecidableEq

/-- Modelled from the spec: `wrap_angle` of `asl_tb3_lib.math_utils` (not
under `src/`) normalizes an angle into the half-open interval `(-pi, pi]`.
The constant `pi` is carried as a (positive) parameter since the embedding
is over `ℚ`: every property proved below is uniform in it. -/
def wrap_angle (pi θ : ℚ) : ℚ :=
  θ - 2 * pi * (⌈θ / (2 * pi) - 1 / 2⌉ : ℤ)

/-- `compute_heading_control` (source lines 315–328): the angular-rate
output is the proportional gain `kp` (a configuration value of the base
controller, not under `src/`) times the wrapped heading error
`wrap_angle (goal.theta - state.theta)`; the linear speed is left at the
message default `0`. -/
def compute_heading_control (kp pi : ℚ) (state goal : TurtleBotState) :
    TurtleBotControl :=
  { velocity := 0
    omega := kp * wrap_angle pi (goal.theta - state.theta) }

/-- The shortest angular path from heading `cur` to heading `tgt`:
a displacement `δ` congruent to `tgt - cur` modulo full turns and lying in
`(-pi, pi]`. -/
def IsShortestAngularPath (pi cur tgt δ : ℚ) : Prop :=
  (∃ k : ℤ, tgt - cur - δ = 2 * pi * k) ∧ -pi < δ ∧ δ ≤ pi

/-- Mutable controller running state carried across tracking-controller
calls (`self.V_prev`, `self.t_prev`, `self.om_prev`). -/
structure TrackState where
  V_prev : ℚ
  t_prev : ℚ
  om_prev : ℚ
deriving DecidableEq

/-- Controller gains and the minimum-speed clamp.  These attributes
(`self.kpx`, `self.kdx`, `self.kpy`, `self.kdy`, `self.V_PREV_THRES`) are
configuration of the base controller, not defined under `src/`; the spec
describes `V_PREV_THRES` as a positive minimum-speed threshold. -/
structure TrackGains where
  kpx : ℚ
  kdx : ℚ
  kpy : ℚ
  kdy : ℚ
  V_PREV_THRES : ℚ
deriving DecidableEq

/-- Abstraction of numpy's trigonometric functions `np.cos` and `np.sin`
as used by the tracking controller. -/
structure Trig where
  cos : ℚ → ℚ
  sin : ℚ → ℚ

/-- Abstraction of the spline evaluations `splev(t, spline, der=d)` for
`d = 0, 1, 2` on the plan's x- and y-splines: six scalar functions of the
query time. -/
structure PlanCurves where
  x0 : ℚ → ℚ
  x1 : ℚ → ℚ
  x2 : ℚ → ℚ
  y0 : ℚ → ℚ
  y1 : ℚ → ℚ
  y2 : ℚ → ℚ

/-- The clamp `V_prev = max(self.V_prev, self.V_PREV_THRES)` applied before
the decoupling division (source line 371). -/
def clampedSpeed (v thres : ℚ) : ℚ :=
  max v thres

/-- `compute_trajectory_tracking_control` (source lines 331–387):
feedback-linearization tracking controller.  Returns the control command
together with the updated running state (`self.t_prev`, `self.V_prev`,
`self.om_prev` saved at lines 381–383). -/
def compute_trajectory_tracking_control (tr : Trig) (g : TrackGains)
    (st : TrackState) (state : TurtleBotState) (plan : PlanCurves)
    (t : ℚ) : TurtleBotControl × TrackState :=
  let x := state.x
  let y := state.y
  let th := state.theta
  let dt := t - st.t_prev
  let x_d := plan.x0 t
  let xd_d := plan.x1 t
  let xdd_d := plan.x2 t
  let y_d := plan.y0 t
  let yd_d := plan.y1 t
  let ydd_d := plan.y2 t
  let ex := x_d - x
  let ey := y_d - y
  let ex_dot := xd_d - st.V_prev * tr.cos th
  let ey_dot := yd_d - st.V_prev * tr.sin th
  let u1 := xdd_d + g.kpx * ex + g.kdx * ex_dot
  let u2 := ydd_d + g.kpy * ey + g.kdy * ey_dot
  let V_prev := clampedSpeed st.V_prev g.V_PREV_THRES
  let a := tr.cos th * u1 + tr.sin th * u2
  let om := (-(tr.sin th) * u1 + tr.cos th * u2) / V_prev
  let V := V_prev + a * dt
  ({ velocity := V, omega := om }, { V_prev := V, t_prev := t, om_prev := om })

/-- The tracking-controller output exactly as claim C1 words it: virtual
inputs `u1`, `u2` from desired acceleration plus PD feedback, forward
acceleration and angular rate via the unicycle decoupling transform with
the clamped previous speed as divisor, and speed integrated over
`t - t_prev` starting from the clamped previous speed. -/
def claimedTrackingControl (tr : Trig) (g : TrackGains) (st : TrackState)
    (state : TurtleBotState) (plan : PlanCurves) (t : ℚ) :
    TurtleBotControl :=
  let u1 := plan.x2 t + g.kpx * (plan.x0 t - state.x)
      + g.kdx * (plan.x1 t - st.V_prev * tr.cos state.theta)
  let u2 := plan.y2 t + g.kpy * (plan.y0 t - state.y)
      + g.kdy * (plan.y1 t - st.V_prev * tr.sin state.theta)
  let a := tr.cos state.theta * u1 + tr.sin state.theta * u2
  let vc := clampedSpeed st.V_prev g.V_PREV_THRES
  { velocity := vc + a * (t - st.t_prev)
    omega := (-(tr.sin state.theta) * u1 + tr.cos state.theta * u2) / vc }

/-- The data a call `splrep(times, values)` was given.  The numerical knot
and coefficient arrays scipy computes are not needed by any claim, so a
successful fit is modelled as the recorded `(times, values)` inputs. -/
structure SplineFit where
  knots : List ℚ
  vals : List ℚ
deriving DecidableEq

/-- `scipy.interpolate.splrep` with the default smoothing `s = 0` and
degree `k = 3`: it raises a `ValueError` (modelled as `Except.error`)
unless the abscissae are strictly increasing and at least `k + 1 = 4`
points are supplied. -/
def splrep (x y : List ℚ) : Except Unit SplineFit :=
  if x.Chain' (· < ·) ∧ 4 ≤ x.length then .ok { knots := x, vals := y }
  else .error ()

/-- `dataclass TrajectoryPlan` (source lines 20–45): raw A* path, the two
axis spline fits, and the plan duration. -/
structure TrajectoryPlan where
  path : List (ℚ × ℚ)
  path_x_spline : SplineFit
  path_y_spline : SplineFit
  duration : ℚ
deriving DecidableEq

/-- The per-segment lengths `np.linalg.norm(np.diff(path, axis=0), axis=1)`
(source line 428), with the Euclidean 2-vector norm abstracted as
`norm2`. -/
def segDists (norm2 : ℚ × ℚ → ℚ) : List (ℚ × ℚ) → List ℚ
  | p :: q :: rest => norm2 (q.1 - p.1, q.2 - p.2) :: segDists norm2 (q :: rest)
  | _ => []

/-- Cumulative arc-length along the path up to each waypoint (the quantity
claim C3 says the time stamps are computed from): `cumDist path` has one
entry per waypoint, starting at `0`. -/
def cumDist (norm2 : ℚ × ℚ → ℚ) (path : List (ℚ × ℚ)) : List ℚ :=
  (List.range path.length).map (fun i => ((segDists norm2 path).take i).sum)

/-- `np.linspace a b n`: `n` evenly spaced samples from `a` to `b`
inclusive (source line 431 uses `np.linspace(0, total_time, len(path))`). -/
def linspace (a b : ℚ) (n : ℕ) : List ℚ :=
  (List.range n).map (fun (i : ℕ) => a + (b - a) * (i : ℚ) / ((n : ℚ) - 1))

/-- `compute_trajectory_plan` (source lines 389–446).  The A* collaborator
(`AStar`, external to this file) is summarized by its outcome
`searchResult`: `none` when `astar.solve()` reports failure, otherwise
`some astar.path`.  The function returns `.ok none` for the explicit
`return None` failure path, `.ok (some plan)` on success, and `.error`
when an exception escapes (the code catches none).  The controller-state
reset `self.V_prev = 0.0; self.t_prev = 0.0` of lines 423–424 touches only
the tracking-controller running state and is not modelled here. -/
def compute_trajectory_plan (norm2 : ℚ × ℚ → ℚ) (V_max : ℚ)
    (searchResult : Option (List (ℚ × ℚ))) :
    Except Unit (Option TrajectoryPlan) :=
  match searchResult with
  | none => .ok none
  | some path =>
    if path.length < 4 then .ok none
    else
      let distances := segDists norm2 path
      let total_distance := distances.sum
      let total_time := total_distance / V_max
      let times := linspace 0 total_time path.length
      match splrep times (path.map Prod.fst), splrep times (path.map Prod.snd) with
      | .ok xsp, .ok ysp =>
          .ok (some { path := path, path_x_spline := xsp, path_y_spline := ysp,
                      duration := total_time })
      | .error e, _ => .error e
      | _, .error e => .error e

/-- The time stamps a plan-construction result assigned to the waypoints
(the shared knot vector of the fitted splines), when it produced a plan. -/
def planTimes : Except Unit (Option TrajectoryPlan) → Option (List ℚ)
  | .ok (some p) => some p.path_x_spline.knots
  | _ => none

/-- Euclidean norm of a 2-vector specialised to vectors with at least one
zero component, where it equals `|v.1| + |v.2|`; used to instantiate the
abstract `norm2` on concrete axis-aligned paths. -/
def axisNorm (v : ℚ × ℚ) : ℚ :=
  |v.1| + |v.2|

/-- The navigator-node state the replanning handler and mode switch read
and write: `self.mode`, `self.is_planned`, `self.plan`, `self.goal`,
`self.occupancy` (only its presence matters to the claims, so it is
modelled as `Option Unit`), and the robot pose `self.state` maintained by
the base class. -/
structure NavState where
  mode : NavMode
  is_planned : Bool
  plan : Option TrajectoryPlan
  goal : Option TurtleBotState
  occupancy : Option Unit
  pose : TurtleBotState
deriving DecidableEq

/-- Observable side effects of one `replan` call: whether a warning was
logged, whether `self.stop()` was issued, whether the external A* search
was invoked, the `Bool` messages published on `/nav_success`, and the
mode transitions logged by `switch_mode`. -/
structure ReplanEffects where
  warned : Bool
  stopped : Bool
  search_invoked : Bool
  nav_success_pub : List Bool
  transitions : List (NavMode × NavMode)
deriving DecidableEq

/-- `switch_mode` (source lines 220–228): when the new mode differs from
the current one, log the `old -> new` transition and set the mode;
otherwise do nothing.  Returns the new state and the transition log
entries produced. -/
def switch_mode (s : NavState) (new_mode : NavMode) :
    NavState × List (NavMode × NavMode) :=
  if s.mode ≠ new_mode then
    ({ s with mode := new_mode }, [(s.mode, new_mode)])
  else
    (s, [])

/-- `can_compute_control` (source lines 307–313). -/
def can_compute_control (s : NavState) : Bool :=
  s.is_planned

/-- External collaborators and configuration of the replanning handler:
the near-goal threshold parameter, the nominal max speed `self.V_max`
(base-controller configuration, not under `src/`), `distance_linear` of
`asl_tb3_lib.math_utils` (modelled from the spec: the linear distance
between two poses), `np.linalg.norm` as `norm2`, the A* collaborator as
`search` (returning `none` when `astar.solve()` fails, else the path; the
occupancy snapshot, resolution and horizon arguments of source lines
144–150 are fixed inside it), and `self.aligned(plan.desired_state(0.0))`
as `alignedAt` (it only selects between ALIGN and TRACK on success and no
claim constrains it). -/
structure NavCtx where
  near_thresh : ℚ
  V_max : ℚ
  distance_linear : TurtleBotState → TurtleBotState → ℚ
  norm2 : ℚ × ℚ → ℚ
  search : TurtleBotState → TurtleBotState → Option (List (ℚ × ℚ))
  alignedAt : TrajectoryPlan → TurtleBotState → Bool

/-- `replan` (source lines 123–173): drop the request with a warning when
no occupancy map has arrived; store the goal; shortcut to PARK with
`is_planned = True` when already near the goal; otherwise stop the robot,
run A* + spline fitting, and either report failure (`is_planned = False`,
publish `Bool(data=False)`) or accept the plan and switch to TRACK or
ALIGN depending on alignment with the plan's initial heading.  The
visualization publishes and info logs of lines 162–166 and the
`plan_start_time` stamp of line 170 are not modelled. -/
def replan (ctx : NavCtx) (s : NavState) (goal : TurtleBotState) :
    Except Unit (NavState × ReplanEffects) :=
  if s.occupancy.isNone then
    .ok (s, { warned := true, stopped := false, search_invoked := false,
              nav_success_pub := [], transitions := [] })
  else
    let s1 := { s with goal := some goal }
    if ctx.distance_linear s1.pose goal < ctx.near_thresh then
      let r := switch_mode { s1 with is_planned := true } NavMode.PARK
      .ok (r.1, { warned := false, stopped := false, search_invoked := false,
                  nav_success_pub := [], transitions := r.2 })
    else
      match compute_trajectory_plan ctx.norm2 ctx.V_max (ctx.search s1.pose goal) with
      | .error e => .error e
      | .ok none =>
          .ok ({ s1 with is_planned := false },
               { warned := true, stopped := true, search_invoked := true,
                 nav_success_pub := [false], transitions := [] })
      | .ok (some p) =>
          let s2 := { s1 with is_planned := true, plan := some p }
          if ctx.alignedAt p s2.pose then
            let r := switch_mode s2 NavMode.TRACK
            .ok (r.1, { warned := false, stopped := true, search_invoked := true,
                        nav_success_pub := [], transitions := r.2 })
          else
            let r := switch_mode s2 NavMode.ALIGN
            .ok (r.1, { warned := false, stopped := true, search_invoked := true,
                        nav_success_pub := [], transitions := r.2 })

/-! ### Concrete instances used by witnesses and counterexamples -/

/-- Concrete trigonometric instance for witness evaluations. -/
def wTrig : Trig :=
  { cos := fun _ => 1, sin := fun _ => 0 }

/-- Concrete plan-curve instance for witness evaluations. -/
def wCurves : PlanCurves :=
  { x0 := fun _ => 0, x1 := fun _ => 0, x2 := fun _ => 0,
    y0 := fun _ => 0, y1 := fun _ => 0, y2 := fun _ => 0 }

/-- Concrete gain instance for witness evaluations; the minimum-speed
clamp is the library's `V_PREV_THRES = 0.0001`. -/
def wGains : TrackGains :=
  { kpx := 2, kdx := 2, kpy := 2, kdy := 2, V_PREV_THRES := 1 / 10000 }

/-- Concrete robot pose for the handler witnesses. -/
def wPose : TurtleBotState :=
  { x := 0, y := 0, theta := 0 }

/-- A goal within the near-goal threshold of `wPose`. -/
def wGoalNear : TurtleBotState :=
  { x := 1 / 20, y := 0, theta := 0 }

/-- A goal far from `wPose`. -/
def wGoalFar : TurtleBotState :=
  { x := 5, y := 0, theta := 0 }

/-- Concrete collaborator instance for the handler witnesses: taxicab
linear distance (the poses used differ on one axis only, where it equals
the Euclidean distance), and a path search that always reports the
3-waypoint path of spec scenario D. -/
def wCtx : NavCtx :=
  { near_thresh := 1 / 10
    V_max := 1
    distance_linear := fun a b => |a.x - b.x| + |a.y - b.y|
    norm2 := axisNorm
    search := fun _ _ => some [(0, 0), (1, 0), (2, 0)]
    alignedAt := fun _ _ => true }

/-- An idle navigator state that has received a map. -/
def wStateIdle : NavState :=
  { mode := NavMode.IDLE, is_planned := false, plan := none, goal := none,
    occupancy := some (), pose := wPose }

/-- An idle navigator state before any map has been received. -/
def wStateNoMap : NavState :=
  { mode := NavMode.IDLE, is_planned := false, plan := none, goal := none,
    occupancy := none, pose := wPose }

/-! ### Claims about the controllers -/

/-- C1: the trajectory tracking controller computes exactly the claimed
formulas: `u1 = xdd_d + kpx*(x_d - x) + kdx*(xd_d - V_prev*cos θ)` (and
`u2` likewise for y), `a = cos θ * u1 + sin θ * u2`,
`omega = (-sin θ * u1 + cos θ * u2) / max(V_prev, V_PREV_THRES)`, and the
commanded speed is the clamped previous speed plus `a * (t - t_prev)`. -/
theorem C1_tracking_control_formula (tr : Trig) (g : TrackGains)
    (st : TrackState) (state : TurtleBotState) (plan : PlanCurves) (t : ℚ) :
    (compute_trajectory_tracking_control tr g st state plan t).1 =
      claimedTrackingControl tr g st state plan t :=
  rfl

/-- C10: whatever the stored previous speed (zero and negative included),
the divisor of the angular-rate decoupling is `clampedSpeed`, which is at
least the positive minimum-speed threshold, so the division never divides
by zero. -/
theorem C10_angular_rate_divisor_clamped (tr : Trig) (g : TrackGains)
    (st : TrackState) (state : TurtleBotState) (plan : PlanCurves) (t : ℚ)
    (h : 0 < g.V_PREV_THRES) :
    g.V_PREV_THRES ≤ clampedSpeed st.V_prev g.V_PREV_THRES ∧
    0 < clampedSpeed st.V_prev g.V_PREV_THRES ∧
    (compute_trajectory_tracking_control tr g st state plan t).1.omega =
      (-(tr.sin state.theta) *
          (plan.x2 t + g.kpx * (plan.x0 t - state.x)
            + g.kdx * (plan.x1 t - st.V_prev * tr.cos state.theta))
        + tr.cos state.theta *
          (plan.y2 t + g.kpy * (plan.y0 t - state.y)
            + g.kdy * (plan.y1 t - st.V_prev * tr.sin state.theta))) /
        clampedSpeed st.V_prev g.V_PREV_THRES := by
  refine ⟨le_max_right _ _, lt_of_lt_of_le h (le_max_right _ _), rfl⟩

/-- Witness for C10 at a concrete input with a negative stored previous
speed. -/
theorem C10_witness :
    (1 / 10000 : ℚ) ≤ clampedSpeed (-5) (1 / 10000) ∧
    0 < clampedSpeed (-5 : ℚ) (1 / 10000) := by
  have h := C10_angular_rate_divisor_clamped wTrig wGains
    { V_prev := -5, t_prev := 0, om_prev := 0 } { x := 0, y := 0, theta := 0 }
    wCurves 0 (by norm_num [wGains])
  exact ⟨h.1, h.2.1⟩

/-- Helper: `wrap_angle` lands in `(-pi, pi]` when `pi > 0`. -/
theorem wrap_angle_mem (pi θ : ℚ) (hpi : 0 < pi) :
    -pi < wrap_angle pi θ ∧ wrap_angle pi θ ≤ pi := by
  have h2 : (0 : ℚ) < 2 * pi := by linarith
  have hle : θ / (2 * pi) - 1 / 2 ≤ ((⌈θ / (2 * pi) - 1 / 2⌉ : ℤ) : ℚ) :=
    Int.le_ceil _
  have hlt : (((⌈θ / (2 * pi) - 1 / 2⌉ : ℤ) : ℚ)) < θ / (2 * pi) - 1 / 2 + 1 :=
    Int.ceil_lt_add_one _
  have hub : θ ≤ (((⌈θ / (2 * pi) - 1 / 2⌉ : ℤ) : ℚ) + 1 / 2) * (2 * pi) := by
    rw [← div_le_iff₀ h2]
    linarith
  have hlb : ((((⌈θ / (2 * pi) - 1 / 2⌉ : ℤ) : ℚ)) - 1 / 2) * (2 * pi) < θ := by
    rw [← lt_div_iff₀ h2]
    linarith
  unfold wrap_angle
  constructor <;> nlinarith

/-- Helper: `wrap_angle` changes its argument by an integer number of full
turns. -/
theorem wrap_angle_sub_turns (pi θ : ℚ) :
    ∃ k : ℤ, θ - wrap_angle pi θ = 2 * pi * k :=
  ⟨⌈θ / (2 * pi) - 1 / 2⌉, by unfold wrap_angle; ring⟩

/-- Helper: the wrapped heading error is a shortest angular path. -/
theorem wrap_angle_isShortestPath (pi cur tgt : ℚ) (hpi : 0 < pi) :
    IsShortestAngularPath pi cur tgt (wrap_angle pi (tgt - cur)) := by
  obtain ⟨k, hk⟩ := wrap_angle_sub_turns pi (tgt - cur)
  obtain ⟨h1, h2⟩ := wrap_angle_mem pi (tgt - cur) hpi
  exact ⟨⟨k, by linarith⟩, h1, h2⟩

/-- Helper: the shortest angular path is unique and equals the wrapped
difference. -/
theorem isShortestPath_unique (pi cur tgt δ : ℚ) (hpi : 0 < pi)
    (h : IsShortestAngularPath pi cur tgt δ) :
    δ = wrap_angle pi (tgt - cur) := by
  obtain ⟨⟨k, hk⟩, hlo, hhi⟩ := h
  obtain ⟨⟨k', hk'⟩, hlo', hhi'⟩ := wrap_angle_isShortestPath pi cur tgt hpi
  have h2 : (0 : ℚ) < 2 * pi := by linarith
  have hdiff : δ - wrap_angle pi (tgt - cur) = 2 * pi * ((k' : ℚ) - (k : ℚ)) := by
    nlinarith [hk, hk']
  have hb1 : 2 * pi * ((k' : ℚ) - (k : ℚ)) < 2 * pi * 1 := by
    rw [← hdiff]
    linarith
  have hb2 : 2 * pi * (-1 : ℚ) < 2 * pi * ((k' : ℚ) - (k : ℚ)) := by
    rw [← hdiff]
    linarith
  have hub : ((k' : ℚ) - (k : ℚ)) < 1 := (mul_lt_mul_left h2).mp hb1
  have hlb : (-1 : ℚ) < ((k' : ℚ) - (k : ℚ)) := (mul_lt_mul_left h2).mp hb2
  have hkk : k' = k := by
    have hub' : ((k' - k : ℤ) : ℚ) < 1 := by push_cast; linarith
    have hlb' : (-1 : ℚ) < ((k' - k : ℤ) : ℚ) := by push_cast; linarith
    have hu : (k' - k : ℤ) < 1 := by exact_mod_cast hub'
    have hl : (-1 : ℤ) < (k' - k : ℤ) := by exact_mod_cast hlb'
    omega
  rw [hkk] at hdiff
  simp at hdiff
  linarith

/-- C2: the heading controller is a pure function of the two headings;
its angular-rate output is the proportional gain times the heading error
wrapped into `(-pi, pi]`; it is zero exactly on equal headings; and its
sign matches the sign of the (unique) shortest angular path from the
current to the target heading, wrap-around pairs included. -/
theorem C2_heading_control (kp pi : ℚ) (hkp : 0 < kp) (hpi : 0 < pi)
    (state goal : TurtleBotState) :
    (∀ s' g' : TurtleBotState, s'.theta = state.theta → g'.theta = goal.theta →
      compute_heading_control kp pi s' g' = compute_heading_control kp pi state goal) ∧
    (state.theta = goal.theta →
      (compute_heading_control kp pi state goal).omega = 0) ∧
    IsShortestAngularPath pi state.theta goal.theta
      (wrap_angle pi (goal.theta - state.theta)) ∧
    (∀ δ : ℚ, IsShortestAngularPath pi state.theta goal.theta δ →
      ((0 < (compute_heading_control kp pi state goal).omega ↔ 0 < δ) ∧
       ((compute_heading_control kp pi state goal).omega = 0 ↔ δ = 0) ∧
       ((compute_heading_control kp pi state goal).omega < 0 ↔ δ < 0))) := by
  refine ⟨?_, ?_, wrap_angle_isShortestPath pi _ _ hpi, ?_⟩
  · intro s' g' hs hg
    unfold compute_heading_control
    rw [hs, hg]
  · intro h
    have hw0 : wrap_angle pi 0 = 0 := by
      unfold wrap_angle
      norm_num
    unfold compute_heading_control
    simp [h, hw0]
  · intro δ hδ
    rw [isShortestPath_unique pi state.theta goal.theta δ hpi hδ]
    unfold compute_heading_control
    simp only
    refine ⟨?_, ?_, ?_⟩
    · exact mul_pos_iff_of_pos_left hkp
    · simp [mul_eq_zero, hkp.ne']
    · constructor
      · intro hneg
        nlinarith
      · intro hneg
        nlinarith

/-- Witness for C2 at the wrap-around pair `current = 179°`,
`target = -179°` (in units where the half-turn is `pi = 3`): the shortest
path is `+2°` and the commanded angular rate is positive. -/
theorem C2_witness :
    0 < (compute_heading_control 1 3 { x := 0, y := 0, theta := 179 / 60 }
      { x := 0, y := 0, theta := -179 / 60 }).omega := by
  have h := (C2_heading_control 1 3 (by norm_num) (by norm_num)
    { x := 0, y := 0, theta := 179 / 60 }
    { x := 0, y := 0, theta := -179 / 60 }).2.2.2 (1 / 30)
    ⟨⟨-1, by norm_num⟩, by norm_num, by norm_num⟩
  exact h.1.mpr (by norm_num)

/-! ### Claims about plan construction -/

/-- Helper: plan construction returns the failure value `None` whenever the
search failed or produced fewer than 4 waypoints (source line 419). -/
theorem compute_plan_fails_on_short (norm2 : ℚ × ℚ → ℚ) (V_max : ℚ)
    (res : Option (List (ℚ × ℚ)))
    (h : res = none ∨ ∃ p, res = some p ∧ p.length < 4) :
    compute_trajectory_plan norm2 V_max res = .ok none := by
  rcases h with h | ⟨p, hp, hlen⟩
  · subst h; rfl
  · subst hp
    simp [compute_trajectory_plan, hlen]

/-- C4: for every path-search result with fewer than 4 waypoints
(search failure included), plan construction returns `None` and never
produces a `TrajectoryPlan`. -/
theorem C4_short_path_no_plan (norm2 : ℚ × ℚ → ℚ) (V_max : ℚ)
    (res : Option (List (ℚ × ℚ)))
    (h : res = none ∨ ∃ p, res = some p ∧ p.length < 4) :
    compute_trajectory_plan norm2 V_max res = .ok none :=
  compute_plan_fails_on_short norm2 V_max res h

/-- Witness for C4 at a concrete 3-waypoint search result. -/
theorem C4_witness :
    compute_trajectory_plan axisNorm 1 (some [(0, 0), (1, 0), (2, 0)]) =
      .ok none :=
  C4_short_path_no_plan axisNorm 1 (some [(0, 0), (1, 0), (2, 0)])
    (Or.inr ⟨[(0, 0), (1, 0), (2, 0)], rfl, by decide⟩)

/-- Helper: the accepted-length branch of `compute_trajectory_plan`
spelled out (source lines 426–445). -/
theorem compute_plan_accepted (norm2 : ℚ × ℚ → ℚ) (V_max : ℚ)
    (path : List (ℚ × ℚ)) (h4 : ¬ path.length < 4) :
    compute_trajectory_plan norm2 V_max (some path) =
      match splrep (linspace 0 ((segDists norm2 path).sum / V_max) path.length)
              (path.map Prod.fst),
            splrep (linspace 0 ((segDists norm2 path).sum / V_max) path.length)
              (path.map Prod.snd) with
      | .ok xsp, .ok ysp =>
          .ok (some { path := path, path_x_spline := xsp, path_y_spline := ysp,
                      duration := (segDists norm2 path).sum / V_max })
      | .error e, _ => .error e
      | _, .error e => .error e := by
  simp only [compute_trajectory_plan, h4, if_false]

/-- C5 (code bug): on a 4-waypoint path of coincident points the total
arc-length is zero, every time stamp is `0`, and the uncaught `ValueError`
from `splrep` escapes (`.error`) instead of the claimed reported planning
failure (`.ok none`). -/
theorem C5_zero_arclength_crashes :
    compute_trajectory_plan axisNorm 1
        (some [(2, 3), (2, 3), (2, 3), (2, 3)]) = .error () := by
  rw [compute_plan_accepted axisNorm 1 [(2, 3), (2, 3), (2, 3), (2, 3)]
    (by decide)]
  have hsum : (segDists axisNorm [((2 : ℚ), (3 : ℚ)), (2, 3), (2, 3), (2, 3)]).sum
      = 0 := by
    norm_num [segDists, axisNorm]
  have ht : linspace 0 ((segDists axisNorm
      [((2 : ℚ), (3 : ℚ)), (2, 3), (2, 3), (2, 3)]).sum / 1)
      ([((2 : ℚ), (3 : ℚ)), (2, 3), (2, 3), (2, 3)].length) = [0, 0, 0, 0] := by
    norm_num [hsum, linspace, List.range_succ]
  rw [ht]
  have hfit : splrep [0, 0, 0, 0]
      ([((2 : ℚ), (3 : ℚ)), (2, 3), (2, 3), (2, 3)].map Prod.fst) = .error () := by
    norm_num [splrep]
  have hfit2 : splrep [0, 0, 0, 0]
      ([((2 : ℚ), (3 : ℚ)), (2, 3), (2, 3), (2, 3)].map Prod.snd) = .error () := by
    norm_num [splrep]
  rw [hfit, hfit2]

/-- Helper: `linspace a b n` has `n` entries. -/
theorem linspace_length (a b : ℚ) (n : ℕ) : (linspace a b n).length = n := by
  simp only [linspace, List.length_map, List.length_range]

/-- Helper: the `i`-th entry of `linspace a b n`. -/
theorem linspace_get (a b : ℚ) (n i : ℕ) (hi : i < (linspace a b n).length) :
    (linspace a b n).get ⟨i, hi⟩ = a + (b - a) * i / ((n : ℚ) - 1) := by
  simp only [linspace, List.get_eq_getElem, List.getElem_map, List.getElem_range]

/-- Helper: `linspace 0 T n` is strictly increasing when `T > 0`. -/
theorem linspace_chain_lt (T : ℚ) (n : ℕ) (hT : 0 < T) :
    (linspace 0 T n).Chain' (· < ·) := by
  rw [List.chain'_iff_get]
  intro i hi
  rw [linspace_get, linspace_get]
  rw [linspace_length] at hi
  have hn : (0 : ℚ) < (n : ℚ) - 1 := by
    have h2 : 2 ≤ n := by omega
    have h2' : (2 : ℚ) ≤ (n : ℚ) := by exact_mod_cast h2
    linarith
  rw [zero_add, zero_add, sub_zero, div_lt_div_iff_of_pos_right hn]
  have hi' : ((i : ℚ)) < ((i + 1 : ℕ) : ℚ) := by exact_mod_cast Nat.lt_succ_self i
  exact mul_lt_mul_of_pos_left hi' hT

/-- Helper: on an accepted path with positive total arc-length and positive
nominal speed, plan construction succeeds, the waypoint time stamps are the
`linspace` samples shared by both spline fits, they are strictly
increasing, and the duration is the total arc-length over `V_max`. -/
theorem compute_plan_success (norm2 : ℚ × ℚ → ℚ) (V_max : ℚ)
    (path : List (ℚ × ℚ)) (h4 : 4 ≤ path.length) (hV : 0 < V_max)
    (htot : 0 < (segDists norm2 path).sum) :
    compute_trajectory_plan norm2 V_max (some path) =
      .ok (some
        { path := path
          path_x_spline :=
            { knots := linspace 0 ((segDists norm2 path).sum / V_max) path.length
              vals := path.map Prod.fst }
          path_y_spline :=
            { knots := linspace 0 ((segDists norm2 path).sum / V_max) path.length
              vals := path.map Prod.snd }
          duration := (segDists norm2 path).sum / V_max }) ∧
    (linspace 0 ((segDists norm2 path).sum / V_max) path.length).Chain' (· < ·) := by
  have hT : 0 < (segDists norm2 path).sum / V_max := div_pos htot hV
  have hchain := linspace_chain_lt ((segDists norm2 path).sum / V_max)
    path.length hT
  have hlen : 4 ≤ (linspace 0 ((segDists norm2 path).sum / V_max)
      path.length).length := by
    rw [linspace_length]
    exact h4
  refine ⟨?_, hchain⟩
  rw [compute_plan_accepted norm2 V_max path (by omega)]
  rw [splrep, if_pos ⟨hchain, hlen⟩]
  rw [splrep, if_pos ⟨hchain, hlen⟩]

/-- C3 counterexample: on the collinear 4-point path
`(0,0), (1,0), (2,0), (4,0)` with `V_max = 1`, the code assigns the
uniformly spaced time stamps `[0, 4/3, 8/3, 4]`, while the cumulative
arc-lengths over `V_max` are `[0, 1, 2, 4]` — so the time stamp of a
waypoint does not equal its cumulative arc-length divided by `V_max`. -/
theorem C3_counterexample :
    planTimes (compute_trajectory_plan axisNorm 1
        (some [(0, 0), (1, 0), (2, 0), (4, 0)])) =
      some [0, 4 / 3, 8 / 3, 4] ∧
    (cumDist axisNorm [(0, 0), (1, 0), (2, 0), (4, 0)]).map (fun d => d / 1) =
      [0, 1, 2, 4] ∧
    planTimes (compute_trajectory_plan axisNorm 1
        (some [(0, 0), (1, 0), (2, 0), (4, 0)])) ≠
      some ((cumDist axisNorm [(0, 0), (1, 0), (2, 0), (4, 0)]).map
        (fun d => d / 1)) := by
  have hsum : (segDists axisNorm
      [((0 : ℚ), (0 : ℚ)), (1, 0), (2, 0), (4, 0)]).sum = 4 := by
    norm_num [segDists, axisNorm]
  have hplan := (compute_plan_success axisNorm 1
    [(0, 0), (1, 0), (2, 0), (4, 0)] (by decide) (by norm_num)
    (by rw [hsum]; norm_num)).1
  have ht : linspace 0 ((segDists axisNorm
      [((0 : ℚ), (0 : ℚ)), (1, 0), (2, 0), (4, 0)]).sum / 1)
      ([((0 : ℚ), (0 : ℚ)), (1, 0), (2, 0), (4, 0)].length)
      = [0, 4 / 3, 8 / 3, 4] := by
    rw [hsum]
    norm_num [linspace, List.range_succ]
  have htimes : planTimes (compute_trajectory_plan axisNorm 1
      (some [(0, 0), (1, 0), (2, 0), (4, 0)])) = some [0, 4 / 3, 8 / 3, 4] := by
    rw [hplan, planTimes]
    rw [ht]
  have hcum : (cumDist axisNorm [(0, 0), (1, 0), (2, 0), (4, 0)]).map
      (fun d => d / 1) = [0, 1, 2, 4] := by
    norm_num [cumDist, segDists, axisNorm, List.range_succ]
  refine ⟨htimes, hcum, ?_⟩
  rw [htimes, hcum]
  norm_num

/-- C3 (amended): for every accepted waypoint sequence (≥ 4 points,
positive total arc-length) and positive nominal speed, plan construction
assigns the waypoints uniformly spaced time stamps from `0` to
`total_arc_length / V_max` (via `linspace`, not cumulative arc-length),
these stamps are strictly increasing, and the plan's duration is the total
arc-length divided by `V_max`. -/
theorem C3_uniform_time_stamps (norm2 : ℚ × ℚ → ℚ) (V_max : ℚ)
    (path : List (ℚ × ℚ)) (h4 : 4 ≤ path.length) (hV : 0 < V_max)
    (htot : 0 < (segDists norm2 path).sum) :
    compute_trajectory_plan norm2 V_max (some path) =
      .ok (some
        { path := path
          path_x_spline :=
            { knots := linspace 0 ((segDists norm2 path).sum / V_max) path.length
              vals := path.map Prod.fst }
          path_y_spline :=
            { knots := linspace 0 ((segDists norm2 path).sum / V_max) path.length
              vals := path.map Prod.snd }
          duration := (segDists norm2 path).sum / V_max }) ∧
    (linspace 0 ((segDists norm2 path).sum / V_max) path.length).Chain' (· < ·) :=
  compute_plan_success norm2 V_max path h4 hV htot

/-- Witness for the amended C3 on a straight-line path of total length 5
with `V_max = 1`: the plan is produced with duration `5 / 1`. -/
theorem C3_witness :
    compute_trajectory_plan axisNorm 1
        (some [(0, 0), (1, 0), (3, 0), (5, 0)]) =
      .ok (some
        { path := [(0, 0), (1, 0), (3, 0), (5, 0)]
          path_x_spline :=
            { knots := linspace 0 ((segDists axisNorm
                [(0, 0), (1, 0), (3, 0), (5, 0)]).sum / 1)
                ([((0 : ℚ), (0 : ℚ)), (1, 0), (3, 0), (5, 0)].length)
              vals := [(0, 0), (1, 0), (3, 0), (5, 0)].map Prod.fst }
          path_y_spline :=
            { knots := linspace 0 ((segDists axisNorm
                [(0, 0), (1, 0), (3, 0), (5, 0)]).sum / 1)
                ([((0 : ℚ), (0 : ℚ)), (1, 0), (3, 0), (5, 0)].length)
              vals := [(0, 0), (1, 0), (3, 0), (5, 0)].map Prod.snd }
          duration := (segDists axisNorm [(0, 0), (1, 0), (3, 0), (5, 0)]).sum / 1 }) ∧
    (linspace 0 ((segDists axisNorm [(0, 0), (1, 0), (3, 0), (5, 0)]).sum / 1)
      ([((0 : ℚ), (0 : ℚ)), (1, 0), (3, 0), (5, 0)].length)).Chain' (· < ·) :=
  C3_uniform_time_stamps axisNorm 1 [(0, 0), (1, 0), (3, 0), (5, 0)]
    (by decide) (by norm_num) (by norm_num [segDists, axisNorm])

/-! ### Claims about the state machine -/

/-- C9: `switch_mode` is idempotent — switching to the current mode logs
nothing and changes no state, while switching to a different mode logs the
`old -> new` transition exactly once and updates only the mode field. -/
theorem C9_switch_mode_idempotent (s : NavState) (m : NavMode) :
    switch_mode s m =
      if s.mode = m then (s, ([] : List (NavMode × NavMode)))
      else ({ s with mode := m }, [(s.mode, m)]) := by
  unfold switch_mode
  by_cases h : s.mode = m <;> simp [h]

/-- C6: a goal request with the robot already within the near-goal
threshold (and a map available) transitions directly to PARK, marks
planning as succeeded, and never invokes the external path search. -/
theorem C6_near_goal_park (ctx : NavCtx) (s : NavState)
    (goal : TurtleBotState) (hocc : s.occupancy = some ())
    (hnear : ctx.distance_linear s.pose goal < ctx.near_thresh) :
    replan ctx s goal =
      .ok ({ s with
             goal := some goal
             is_planned := true
             mode := NavMode.PARK },
           { warned := false, stopped := false, search_invoked := false,
             nav_success_pub := [],
             transitions := (if s.mode = NavMode.PARK then []
               else [(s.mode, NavMode.PARK)]) }) := by
  obtain ⟨mode, ip, pl, gl, oc, ps⟩ := s
  simp only at hocc hnear
  subst hocc
  simp only [replan, switch_mode, Option.isNone_some, Bool.false_eq_true,
    if_false, hnear, if_true]
  by_cases h : mode = NavMode.PARK <;> simp [h]

/-- Witness for C6: an IDLE robot at the origin receives a goal 1/20 away
with threshold 1/10. -/
theorem C6_witness :
    replan wCtx wStateIdle wGoalNear =
      .ok ({ wStateIdle with
             goal := some wGoalNear
             is_planned := true
             mode := NavMode.PARK },
           { warned := false, stopped := false, search_invoked := false,
             nav_success_pub := [],
             transitions := [(NavMode.IDLE, NavMode.PARK)] }) := by
  have h := C6_near_goal_park wCtx wStateIdle wGoalNear rfl
    (by norm_num [wCtx, wStateIdle, wPose, wGoalNear, abs_of_nonneg])
  simpa [wStateIdle] using h

/-- C7: when the path search fails or returns fewer than 4 waypoints (and
the robot is not already near the goal), `replan` marks the system as not
planned, publishes `Bool(data=False)` on `/nav_success`, and leaves the
mode unchanged. -/
theorem C7_planning_failure_signal (ctx : NavCtx) (s : NavState)
    (goal : TurtleBotState) (hocc : s.occupancy = some ())
    (hfar : ¬ ctx.distance_linear s.pose goal < ctx.near_thresh)
    (hshort : ctx.search s.pose goal = none ∨
      ∃ p, ctx.search s.pose goal = some p ∧ p.length < 4) :
    replan ctx s goal =
      .ok ({ s with goal := some goal, is_planned := false },
           { warned := true, stopped := true, search_invoked := true,
             nav_success_pub := [false], transitions := [] }) := by
  have hplan := compute_plan_fails_on_short ctx.norm2 ctx.V_max
    (ctx.search s.pose goal) hshort
  obtain ⟨mode, ip, pl, gl, oc, ps⟩ := s
  simp only at hocc hfar hplan
  subst hocc
  simp [replan, hfar, hplan]

/-- Witness for C7 (spec scenario D): the search returns exactly 3
waypoints for a goal 5 away. -/
theorem C7_witness :
    replan wCtx wStateIdle wGoalFar =
      .ok ({ wStateIdle with goal := some wGoalFar, is_planned := false },
           { warned := true, stopped := true, search_invoked := true,
             nav_success_pub := [false], transitions := [] }) :=
  C7_planning_failure_signal wCtx wStateIdle wGoalFar rfl
    (by norm_num [wCtx, wStateIdle, wPose, wGoalFar])
    (Or.inr ⟨[(0, 0), (1, 0), (2, 0)], rfl, by decide⟩)

/-- C8: a goal request arriving before any occupancy map leaves the whole
navigator state unchanged, only warns, does not invoke the search, builds
no plan, publishes nothing, logs no transition — and the
can-compute-control guard stays false. -/
theorem C8_missing_map_drop (ctx : NavCtx) (s : NavState)
    (goal : TurtleBotState) (hocc : s.occupancy = none) :
    replan ctx s goal =
      .ok (s, { warned := true, stopped := false, search_invoked := false,
                nav_success_pub := [], transitions := [] }) ∧
    (s.is_planned = false → can_compute_control s = false) := by
  constructor
  · unfold replan
    rw [hocc]
    rfl
  · intro h
    simpa [can_compute_control] using h

/-- Witness for C8 (spec scenario C): a goal request before any map. -/
theorem C8_witness :
    replan wCtx wStateNoMap wGoalFar =
      .ok (wStateNoMap,
           { warned := true, stopped := false, search_invoked := false,
             nav_success_pub := [], transitions := [] }) ∧
    (wStateNoMap.is_planned = false →
      can_compute_control wStateNoMap = false) :=
  C8_missing_map_drop wCtx wStateNoMap wGoalFar rfl

end Navigator
